import Mathlib

/-!
Shallow embedding of the request gate of the security-aware internal API:
the abuse-aware rate limiter (`src/middleware/rate_limit.py`), the JWT
token validator (`src/auth/oauth.py`) and the capability scope guard
(`src/auth/scopes.py`).

Wall-clock time is embedded as a rational number of seconds (the Python
code reads sub-second `time.time()` / `datetime.now()` clocks); Python
floats holding the penalty multiplier are embedded as exact rationals;
Python `int(...)` truncation toward zero is embedded by `pyInt`.
Stateful methods become state-passing functions returning the updated
per-identity record together with the outcome (raised `HTTPException`s
become explicit error values).
-/

/-- Truncation toward zero, the behaviour of Python `int()` on a float. -/
def pyInt (q : ℚ) : ℤ := if 0 ≤ q then ⌊q⌋ else ⌈q⌉

/-- Per-route rate limit configuration (`RouteConfig` in rate_limit.py);
defaults `requests_per_minute=60`, `burst_allowance=10`. -/
structure RouteConfig where
  requests_per_minute : ℤ
  burst_allowance : ℤ
deriving DecidableEq

/-- The dataclass defaults of `RouteConfig()`. -/
def RouteConfig.dflt : RouteConfig := ⟨60, 10⟩

/-- Per-identity rate limit record (`RateLimitState` in rate_limit.py):
in-window request timestamps, penalty multiplier, malformed-event counter
and the timestamp of the last decay (`last_reset`). -/
structure RateLimitState where
  requests : List ℚ
  penalty_multiplier : ℚ
  malformed_count : ℤ
  last_reset : ℚ
deriving DecidableEq

/-- A freshly created record, as `defaultdict(RateLimitState)` builds it at
time `t0`: no requests, multiplier 1.0, malformed_count 0. -/
def freshState (t0 : ℚ) : RateLimitState := ⟨[], 1, 0, t0⟩

/-- Class constants of `RateLimiter`. -/
def DEFAULT_REQUESTS_PER_MINUTE : ℤ := 100

def DEFAULT_WINDOW_SECONDS : ℚ := 60

def MALFORMED_PENALTY_FACTOR : ℚ := 1/2

def MAX_MALFORMED_BEFORE_BLOCK : ℤ := 5

def PENALTY_DECAY_MINUTES : ℚ := 10

/-- The two `HTTPException` outcomes the limiter can raise (both 429):
quota exceeded (from `check_rate_limit`, carrying the Retry-After and
X-RateLimit-Limit header values) and blocked (from
`record_malformed_request`, carrying Retry-After). -/
inductive RateLimitError where
  | quota_exceeded (retry_after : ℚ) (limit : ℤ)
  | blocked (retry_after : ℚ)
deriving DecidableEq

/-- Whether an optional limiter outcome is the blocked rejection. -/
def isBlockedErr : Option RateLimitError → Bool
  | some (RateLimitError.blocked _) => true
  | _ => false

/-- `RateLimiter._get_effective_limit`: cap the route quota at the global
default, scale by the penalty multiplier, truncate, floor at 1.  A route
absent from the route table uses `RouteConfig()` defaults. -/
def get_effective_limit (s : RateLimitState) (cfg : Option RouteConfig) : ℤ :=
  let rc := cfg.getD RouteConfig.dflt
  let base_limit : ℤ :=
    min DEFAULT_REQUESTS_PER_MINUTE (rc.requests_per_minute + rc.burst_allowance)
  max 1 (pyInt ((base_limit : ℚ) * s.penalty_multiplier))

/-- `RateLimiter._clean_old_requests`: drop timestamps at or before
`now - DEFAULT_WINDOW_SECONDS` (the Python keeps `t > cutoff`). -/
def clean_old_requests (now : ℚ) (s : RateLimitState) : RateLimitState :=
  { s with requests := s.requests.filter (fun t => decide (now - DEFAULT_WINDOW_SECONDS < t)) }

/-- `RateLimiter._maybe_decay_penalty`: if at least `PENALTY_DECAY_MINUTES`
minutes elapsed since `last_reset`, raise the multiplier by 0.25 (capped at
1.0), lower `malformed_count` by 1 (floored at 0) and reset `last_reset`. -/
def maybe_decay_penalty (now : ℚ) (s : RateLimitState) : RateLimitState :=
  if (now - s.last_reset) / 60 ≥ PENALTY_DECAY_MINUTES then
    { s with
      penalty_multiplier := min 1 (s.penalty_multiplier + 1/4),
      malformed_count := max 0 (s.malformed_count - 1),
      last_reset := now }
  else s

/-- `RateLimiter.check_rate_limit`: prune, apply pending decay, compare the
in-window count against the effective limit; on success record `now`.
Returns the persisted record together with the optional 429 outcome. -/
def check_rate_limit (now : ℚ) (cfg : Option RouteConfig) (s : RateLimitState) :
    RateLimitState × Option RateLimitError :=
  let s1 := clean_old_requests now s
  let s2 := maybe_decay_penalty now s1
  let effective_limit := get_effective_limit s2 cfg
  if (s2.requests.length : ℤ) ≥ effective_limit then
    (s2, some (RateLimitError.quota_exceeded DEFAULT_WINDOW_SECONDS effective_limit))
  else
    ({ s2 with requests := s2.requests ++ [now] }, none)

/-- `RateLimiter.record_malformed_request`: increment `malformed_count`,
halve the multiplier (floored at 0.1), then raise the blocked 429 when the
counter has reached the block threshold.  The mutations happen before the
raise, exactly as in the Python, so the returned (persisted) record carries
them even on the blocking outcome. -/
def record_malformed_request (s : RateLimitState) :
    RateLimitState × Option RateLimitError :=
  let s1 := { s with malformed_count := s.malformed_count + 1 }
  let s2 := { s1 with
    penalty_multiplier := max (1/10) (s1.penalty_multiplier * MALFORMED_PENALTY_FACTOR) }
  if s2.malformed_count ≥ MAX_MALFORMED_BEFORE_BLOCK then
    (s2, some (RateLimitError.blocked (PENALTY_DECAY_MINUTES * 60)))
  else
    (s2, none)

/-- `RateLimiter.get_remaining`: prune (a persisted mutation of the record),
then report `max 0 (effective_limit - count)`.  No decay is applied here. -/
def get_remaining (now : ℚ) (cfg : Option RouteConfig) (s : RateLimitState) :
    RateLimitState × ℤ :=
  let s1 := clean_old_requests now s
  let effective_limit := get_effective_limit s1 cfg
  (s1, max 0 (effective_limit - s1.requests.length))

/-- One call against a single identity's record: the three public limiter
operations, each carrying the clock reading and route configuration it was
invoked with. -/
inductive RLCall where
  | check (now : ℚ) (cfg : Option RouteConfig)
  | malformed
  | remaining (now : ℚ) (cfg : Option RouteConfig)

/-- The record persisted after one call (errors do not roll state back). -/
def applyCall (s : RateLimitState) : RLCall → RateLimitState
  | RLCall.check now cfg => (check_rate_limit now cfg s).1
  | RLCall.malformed => (record_malformed_request s).1
  | RLCall.remaining now cfg => (get_remaining now cfg s).1

/-- The record persisted after a sequence of calls. -/
def runCalls (s : RateLimitState) (calls : List RLCall) : RateLimitState :=
  calls.foldl applyCall s

/-! ## Token validation (`src/auth/oauth.py`) -/

/-- Configured expected issuer (`JWT_ISSUER` default). -/
def JWT_ISSUER : String := "security-aware-api"

/-- Configured expected audience (`JWT_AUDIENCE` default). -/
def JWT_AUDIENCE : String := "internal-services"

/-- The decoded JWT claim dictionary.  Each claim is optional: the Python
payload is a dict and `get_current_token` reads the claims through
`payload.get` with defaults.  The `aud` claim is embedded as a string (the
tokens this service issues and consumes always carry a string audience). -/
structure JWTPayload where
  sub : Option String
  scopes : Option (List String)
  exp : Option ℤ
  iat : Option ℤ
  iss : Option String
  aud : Option String
deriving DecidableEq

/-- A presented bearer credential: its claim payload, whether its signature
verifies under the configured secret and algorithm (the cryptographic step
is abstracted to this flag), and the SHA-256 fingerprint `_hash_token`
derives from the raw token. -/
structure Credential where
  payload : JWTPayload
  sigValid : Bool
  token_hash : String
deriving DecidableEq

/-- `jose.jwt.decode(token, JWT_SECRET, algorithms=[...], audience=...,
issuer=...)`: verifies the signature, then validates claims with second
granularity — `exp`, when present, must not be before `nowSec`; the `aud`
claim is validated only when it is PRESENT (jose's `_validate_aud` returns
without error on a token with no aud claim, `require_aud` defaulting to
false and oauth.py passing no options), in which case it must equal the
expected audience; the `iss` claim must be present and equal to the
expected issuer (`claims.get("iss") not in (issuer,)` raises on a missing
claim).  Every failure raises some `JWTError` (`ExpiredSignatureError`
included), which the caller cannot distinguish; the model therefore
collapses them to one error. -/
def jwt_decode (nowSec : ℤ) (cred : Credential) : Except Unit JWTPayload :=
  if !cred.sigValid then Except.error ()
  else if (cred.payload.exp.map (fun e => decide (e < nowSec))).getD false then
    Except.error ()
  else if (cred.payload.aud.map (fun a => decide (a ≠ JWT_AUDIENCE))).getD false then
    Except.error ()
  else if cred.payload.iss ≠ some JWT_ISSUER then Except.error ()
  else Except.ok cred.payload

/-- The validated payload `get_current_token` returns on success
(`TokenPayload` in oauth.py). -/
structure TokenPayload where
  sub : String
  scopes : List String
  exp : ℤ
  iat : ℤ
  iss : String
  aud : String
  token_hash : String
deriving DecidableEq

/-- The four outcomes of `get_current_token`: the three 401 rejections
(missing / invalid / expired, distinct `HTTPException`s with distinct
logged reasons) and acceptance with the validated payload. -/
inductive AuthResult where
  | missing
  | invalid
  | expired
  | accepted (t : TokenPayload)
deriving DecidableEq

/-- `get_current_token` at clock reading `now` (rational seconds): absent
credential → missing; decode failure (signature, decode-level expiry,
audience, issuer) → invalid; then the explicit re-check of `exp` against
the sub-second clock → expired; otherwise build the validated payload,
defaulting `sub`, `scopes` and `iat` when absent.  The decode step sees the
clock truncated to whole seconds (`timegm(utctimetuple())`), the explicit
re-check sees it in full precision (`datetime.now`). -/
def get_current_token (now : ℚ) (cred : Option Credential) : AuthResult :=
  match cred with
  | none => AuthResult.missing
  | some c =>
    match jwt_decode ⌊now⌋ c with
    | Except.error _ => AuthResult.invalid
    | Except.ok p =>
      let exp := p.exp.getD 0
      if (exp : ℚ) < now then AuthResult.expired
      else AuthResult.accepted
        { sub := p.sub.getD "unknown"
          scopes := p.scopes.getD []
          exp := exp
          iat := p.iat.getD 0
          iss := p.iss.getD ""
          aud := p.aud.getD ""
          token_hash := c.token_hash }

/-! ## Scope authorization (`src/auth/scopes.py`) -/

/-- The sanitized `HTTPException` payload surfaced to the caller. -/
structure HTTPErrorModel where
  status_code : ℕ
  detail : String
  headers : List (String × String)
deriving DecidableEq

/-- The structured record `scope_guard` hands the security event sink:
either an authorization failure (carrying required, provided and missing
scope lists) or an authorization success. -/
inductive ScopeLogEvent where
  | authz_failure (token_hash : String)
      (required_scopes provided_scopes missing_scopes : List String)
  | authz_success (token_hash : String) (scopes_used : List String)
deriving DecidableEq

/-- The inner `scope_guard` closure of `require_scope`: compute
`missing_scopes` by exact string membership; when non-empty, log the
failure and raise 403 with the generic detail and a `WWW-Authenticate`
challenge listing the required scopes; otherwise log success and return
the token.  Returns the caller-visible result paired with the sink event. -/
def scope_guard (required_scopes : List String) (token : TokenPayload) :
    Except HTTPErrorModel TokenPayload × ScopeLogEvent :=
  let missing_scopes := required_scopes.filter (fun s => !(token.scopes.contains s))
  if missing_scopes ≠ [] then
    (Except.error
      { status_code := 403
        detail := "Insufficient scope"
        headers := [("WWW-Authenticate",
          "Bearer scope=\"" ++ String.intercalate " " required_scopes ++ "\"")] },
     ScopeLogEvent.authz_failure token.token_hash required_scopes token.scopes
       missing_scopes)
  else
    (Except.ok token,
     ScopeLogEvent.authz_success token.token_hash required_scopes)

/-- Whether a guard result is the success case. -/
def scopeOk : Except HTTPErrorModel TokenPayload → Bool
  | Except.ok _ => true
  | Except.error _ => false

/-! ## Helper lemmas -/

theorem max_one_pyInt (q : ℚ) : max 1 (pyInt q) = max 1 ⌊q⌋ := by
  unfold pyInt
  split_ifs with h
  · rfl
  · push_neg at h
    have h1 : (⌈q⌉ : ℤ) ≤ 0 := Int.ceil_le.mpr (by exact_mod_cast h.le)
    have h2 : (⌊q⌋ : ℤ) ≤ 0 := Int.floor_nonpos h.le
    rw [max_eq_left (h1.trans (by norm_num)), max_eq_left (h2.trans (by norm_num))]

theorem record_malformed_fst (s : RateLimitState) :
    (record_malformed_request s).1 =
      { s with
        malformed_count := s.malformed_count + 1,
        penalty_multiplier :=
          max (1/10) (s.penalty_multiplier * MALFORMED_PENALTY_FACTOR) } := by
  unfold record_malformed_request
  dsimp only
  split_ifs <;> rfl

theorem effective_limit_mono (s s' : RateLimitState) (cfg : Option RouteConfig)
    (hm : 0 ≤ s'.penalty_multiplier)
    (hle : s'.penalty_multiplier ≤ s.penalty_multiplier) :
    get_effective_limit s' cfg ≤ get_effective_limit s cfg := by
  unfold get_effective_limit
  rw [max_one_pyInt, max_one_pyInt]
  set b : ℤ := min DEFAULT_REQUESTS_PER_MINUTE
    ((cfg.getD RouteConfig.dflt).requests_per_minute +
      (cfg.getD RouteConfig.dflt).burst_allowance) with hb
  rcases le_or_lt 0 b with hpos | hneg
  · have hbq : (0:ℚ) ≤ (b:ℚ) := by exact_mod_cast hpos
    have : (b:ℚ) * s'.penalty_multiplier ≤ (b:ℚ) * s.penalty_multiplier :=
      mul_le_mul_of_nonneg_left hle hbq
    exact max_le_max le_rfl (Int.floor_le_floor this)
  · have hbq : (b:ℚ) ≤ 0 := by exact_mod_cast hneg.le
    have h1 : (b:ℚ) * s'.penalty_multiplier ≤ 0 :=
      mul_nonpos_iff.mpr (Or.inr ⟨hbq, hm⟩)
    have h2 : ⌊(b:ℚ) * s'.penalty_multiplier⌋ ≤ 0 := Int.floor_nonpos h1
    calc max 1 ⌊(b:ℚ) * s'.penalty_multiplier⌋ = 1 :=
          max_eq_left (h2.trans (by norm_num))
      _ ≤ max 1 ⌊(b:ℚ) * s.penalty_multiplier⌋ := le_max_left _ _

/-! ## Claims -/

/-- Claim C5: for every identity state and every route, the effective rate
limit equals `max(1, floor(min(global_cap, base + burst) × multiplier))`
with global cap 100, a route absent from the table using the default base
60 and burst 10. -/
theorem C5_effective_limit_formula (s : RateLimitState) (cfg : RouteConfig) :
    (get_effective_limit s (some cfg) =
      max 1 ⌊min (100:ℚ) ((cfg.requests_per_minute : ℚ) + (cfg.burst_allowance : ℚ)) *
        s.penalty_multiplier⌋)
  ∧ (get_effective_limit s none =
      max 1 ⌊min (100:ℚ) ((60:ℚ) + (10:ℚ)) * s.penalty_multiplier⌋) := by
  constructor
  · unfold get_effective_limit DEFAULT_REQUESTS_PER_MINUTE
    dsimp only [Option.getD]
    rw [max_one_pyInt]
    congr 2
    push_cast
    rfl
  · unfold get_effective_limit DEFAULT_REQUESTS_PER_MINUTE RouteConfig.dflt
    dsimp only [Option.getD]
    rw [max_one_pyInt]
    norm_num

/-- Claim C7: a `record_malformed_request` call — which never applies a
decay tick itself — leaves the identity's effective limit non-increasing,
for every route; the hypothesis is the multiplier lower bound 0.1 that
holds in every reachable record (the C6 invariant). -/
theorem C7_record_malformed_monotone (s : RateLimitState) (cfg : Option RouteConfig)
    (h : 1/10 ≤ s.penalty_multiplier) :
    get_effective_limit (record_malformed_request s).1 cfg ≤ get_effective_limit s cfg := by
  apply effective_limit_mono
  · rw [record_malformed_fst]
    exact le_trans (by norm_num) (le_max_left _ _)
  · rw [record_malformed_fst]
    refine max_le h ?_
    unfold MALFORMED_PENALTY_FACTOR
    nlinarith

theorem C7_witness :
    (1:ℚ)/10 ≤ (freshState 0).penalty_multiplier
  ∧ get_effective_limit (record_malformed_request (freshState 0)).1 none ≤
      get_effective_limit (freshState 0) none :=
  ⟨by norm_num [freshState],
   C7_record_malformed_monotone (freshState 0) none (by norm_num [freshState])⟩

/-- The per-identity record of an identity past the block threshold
(5 malformed events, multiplier floored at 0.1, empty request window). -/
def blockedStateC1 : RateLimitState := ⟨[], 1/10, 5, 0⟩

/-- Claim C1 (code bug): `check_rate_limit` never consults
`malformed_count`, so an identity at or above the block threshold is NOT
rejected with the blocked outcome on `check`: with an empty window it
passes outright, and in general `check_rate_limit` can only ever produce
the quota_exceeded outcome, never blocked. -/
theorem C1_blocked_not_enforced_in_check :
    MAX_MALFORMED_BEFORE_BLOCK ≤ blockedStateC1.malformed_count
  ∧ (check_rate_limit 0 (some ⟨120, 20⟩) blockedStateC1).2 = none
  ∧ ∀ (now : ℚ) (cfg : Option RouteConfig) (s : RateLimitState),
      isBlockedErr (check_rate_limit now cfg s).2 = false := by
  refine ⟨by norm_num [MAX_MALFORMED_BEFORE_BLOCK, blockedStateC1], ?_, ?_⟩
  · norm_num [check_rate_limit, clean_old_requests, maybe_decay_penalty,
      get_effective_limit, DEFAULT_REQUESTS_PER_MINUTE, DEFAULT_WINDOW_SECONDS,
      PENALTY_DECAY_MINUTES, pyInt, blockedStateC1]
  · intro now cfg s
    unfold check_rate_limit
    dsimp only
    split_ifs <;> rfl

theorem clean_penalty (now : ℚ) (s : RateLimitState) :
    (clean_old_requests now s).penalty_multiplier = s.penalty_multiplier := rfl

theorem clean_malformed (now : ℚ) (s : RateLimitState) :
    (clean_old_requests now s).malformed_count = s.malformed_count := rfl

theorem clean_last_reset (now : ℚ) (s : RateLimitState) :
    (clean_old_requests now s).last_reset = s.last_reset := rfl

theorem decay_clean_comm (now : ℚ) (s : RateLimitState) :
    maybe_decay_penalty now (clean_old_requests now s) =
      clean_old_requests now (maybe_decay_penalty now s) := by
  unfold maybe_decay_penalty clean_old_requests
  dsimp only
  split_ifs <;> rfl

theorem check_fst_fields (now : ℚ) (cfg : Option RouteConfig) (s : RateLimitState) :
    (check_rate_limit now cfg s).1.penalty_multiplier =
        (maybe_decay_penalty now s).penalty_multiplier
  ∧ (check_rate_limit now cfg s).1.malformed_count =
        (maybe_decay_penalty now s).malformed_count
  ∧ (check_rate_limit now cfg s).1.last_reset =
        (maybe_decay_penalty now s).last_reset := by
  unfold check_rate_limit
  dsimp only
  rw [decay_clean_comm]
  split_ifs <;> exact ⟨rfl, rfl, rfl⟩

/-- Concrete identity record for the decay counterexample: one malformed
event already applied (multiplier 0.5), last decay at time 0. -/
def stateC4 : RateLimitState := ⟨[], 1/2, 1, 0⟩

/-- Claim C4 counterexample: at time 600 s (= the full 10-minute decay
interval after `last_reset`), `get_remaining` leaves the multiplier,
malformed count, and last-decay timestamp untouched, although the claim
says every `getRemaining` call applies the decay (which would raise the
multiplier to 0.75, lower the count to 0 and reset the timestamp). -/
theorem C4_counterexample :
    ((600:ℚ) - stateC4.last_reset) / 60 ≥ PENALTY_DECAY_MINUTES
  ∧ (get_remaining 600 none stateC4).1.penalty_multiplier = 1/2
  ∧ (get_remaining 600 none stateC4).1.malformed_count = 1
  ∧ (get_remaining 600 none stateC4).1.last_reset = 0
  ∧ ¬ ((get_remaining 600 none stateC4).1.penalty_multiplier =
        min 1 (stateC4.penalty_multiplier + 1/4)) := by
  refine ⟨by norm_num [stateC4, PENALTY_DECAY_MINUTES], rfl, rfl, rfl, ?_⟩
  show ¬ ((1:ℚ)/2 = min 1 ((1:ℚ)/2 + 1/4))
  norm_num

/-- Claim C4 as amended: the lazy decay (multiplier +0.25 capped at 1.0,
malformed count −1 floored at 0, last-decay timestamp reset) fires exactly
when the elapsed time since `last_reset` is at least 10 minutes, but ONLY
on `check_rate_limit` calls; `get_remaining` and
`record_malformed_request` never apply it: `get_remaining` leaves all
three fields unchanged and `record_malformed_request` keeps `last_reset`
and increments the count. -/
theorem C4_decay_only_on_check (now : ℚ) (cfg : Option RouteConfig) (s : RateLimitState) :
    ((now - s.last_reset) / 60 ≥ PENALTY_DECAY_MINUTES →
      maybe_decay_penalty now s =
        { s with
          penalty_multiplier := min 1 (s.penalty_multiplier + 1/4),
          malformed_count := max 0 (s.malformed_count - 1),
          last_reset := now })
  ∧ (¬ ((now - s.last_reset) / 60 ≥ PENALTY_DECAY_MINUTES) →
      maybe_decay_penalty now s = s)
  ∧ ((check_rate_limit now cfg s).1.penalty_multiplier =
        (maybe_decay_penalty now s).penalty_multiplier
     ∧ (check_rate_limit now cfg s).1.malformed_count =
        (maybe_decay_penalty now s).malformed_count
     ∧ (check_rate_limit now cfg s).1.last_reset =
        (maybe_decay_penalty now s).last_reset)
  ∧ ((get_remaining now cfg s).1.penalty_multiplier = s.penalty_multiplier
     ∧ (get_remaining now cfg s).1.malformed_count = s.malformed_count
     ∧ (get_remaining now cfg s).1.last_reset = s.last_reset)
  ∧ ((record_malformed_request s).1.last_reset = s.last_reset
     ∧ (record_malformed_request s).1.malformed_count = s.malformed_count + 1) := by
  refine ⟨?_, ?_, check_fst_fields now cfg s, ⟨rfl, rfl, rfl⟩, ?_⟩
  · intro h
    unfold maybe_decay_penalty
    rw [if_pos h]
  · intro h
    unfold maybe_decay_penalty
    rw [if_neg h]
  · rw [record_malformed_fst]
    exact ⟨rfl, rfl⟩

theorem C4_decay_only_on_check_witness :
    maybe_decay_penalty 600 stateC4 =
      { stateC4 with
        penalty_multiplier := min 1 (stateC4.penalty_multiplier + 1/4),
        malformed_count := max 0 (stateC4.malformed_count - 1),
        last_reset := 600 } :=
  (C4_decay_only_on_check 600 none stateC4).1
    (by norm_num [stateC4, PENALTY_DECAY_MINUTES])

/-- The multiplier/counter invariant of a per-identity record. -/
def RLInv (s : RateLimitState) : Prop :=
  1/10 ≤ s.penalty_multiplier ∧ s.penalty_multiplier ≤ 1 ∧ 0 ≤ s.malformed_count

theorem rlInv_clean (now : ℚ) (s : RateLimitState) (h : RLInv s) :
    RLInv (clean_old_requests now s) := h

theorem rlInv_decay (now : ℚ) (s : RateLimitState) (h : RLInv s) :
    RLInv (maybe_decay_penalty now s) := by
  obtain ⟨h1, h2, h3⟩ := h
  unfold maybe_decay_penalty
  split_ifs with hd
  · exact ⟨le_min (by norm_num) (by linarith), min_le_left _ _, le_max_left _ _⟩
  · exact ⟨h1, h2, h3⟩

theorem rlInv_record (s : RateLimitState) (h : RLInv s) :
    RLInv (record_malformed_request s).1 := by
  obtain ⟨h1, h2, h3⟩ := h
  rw [record_malformed_fst]
  refine ⟨le_max_left _ _, ?_, by simpa using h3.trans (by norm_num)⟩
  refine max_le (by norm_num) ?_
  unfold MALFORMED_PENALTY_FACTOR
  nlinarith

theorem rlInv_check (now : ℚ) (cfg : Option RouteConfig) (s : RateLimitState)
    (h : RLInv s) : RLInv (check_rate_limit now cfg s).1 := by
  have hd : RLInv (maybe_decay_penalty now (clean_old_requests now s)) :=
    rlInv_decay now _ (rlInv_clean now s h)
  unfold check_rate_limit
  dsimp only
  split_ifs
  · exact hd
  · exact hd

theorem rlInv_remaining (now : ℚ) (cfg : Option RouteConfig) (s : RateLimitState)
    (h : RLInv s) : RLInv (get_remaining now cfg s).1 :=
  rlInv_clean now s h

theorem rlInv_applyCall (s : RateLimitState) (c : RLCall) (h : RLInv s) :
    RLInv (applyCall s c) := by
  cases c with
  | check now cfg => exact rlInv_check now cfg s h
  | malformed => exact rlInv_record s h
  | remaining now cfg => exact rlInv_remaining now cfg s h

theorem rlInv_runCalls (s : RateLimitState) (calls : List RLCall) (h : RLInv s) :
    RLInv (runCalls s calls) := by
  induction calls generalizing s with
  | nil => exact h
  | cons c cs ih => exact ih _ (rlInv_applyCall s c h)

/-- Claim C6: from a freshly created record, any sequence of
`check_rate_limit`, `record_malformed_request` and `get_remaining` calls
keeps the penalty multiplier inside [0.1, 1.0] and the malformed counter
non-negative. -/
theorem C6_invariant_reachable (t0 : ℚ) (calls : List RLCall) :
    1/10 ≤ (runCalls (freshState t0) calls).penalty_multiplier
  ∧ (runCalls (freshState t0) calls).penalty_multiplier ≤ 1
  ∧ 0 ≤ (runCalls (freshState t0) calls).malformed_count :=
  rlInv_runCalls (freshState t0) calls ⟨by norm_num [freshState], le_refl 1, le_refl 0⟩

/-- Claim C10: when `record_malformed_request` raises the blocked 429
(the counter having reached the threshold), the mutations it performed
beforehand — the counter increment and the floored halving of the
multiplier — are present in the persisted record: nothing rolls back. -/
theorem C10_mutations_persist_on_block (s : RateLimitState)
    (h : (record_malformed_request s).2 ≠ none) :
    (record_malformed_request s).1.malformed_count = s.malformed_count + 1
  ∧ (record_malformed_request s).1.penalty_multiplier =
      max (1/10) (s.penalty_multiplier * MALFORMED_PENALTY_FACTOR)
  ∧ (record_malformed_request s).2 =
      some (RateLimitError.blocked (PENALTY_DECAY_MINUTES * 60))
  ∧ MAX_MALFORMED_BEFORE_BLOCK ≤ s.malformed_count + 1 := by
  have hb : MAX_MALFORMED_BEFORE_BLOCK ≤ s.malformed_count + 1 := by
    by_contra hb
    apply h
    unfold record_malformed_request
    dsimp only
    rw [if_neg (by exact fun hc => hb hc)]
  refine ⟨by rw [record_malformed_fst], by rw [record_malformed_fst], ?_, hb⟩
  unfold record_malformed_request
  dsimp only
  rw [if_pos (by exact hb)]

theorem C10_witness :
    (record_malformed_request ⟨[], 1, 4, 0⟩).2 ≠ none
  ∧ (record_malformed_request ⟨[], 1, 4, 0⟩).1.malformed_count = (4:ℤ) + 1
  ∧ (record_malformed_request ⟨[], 1, 4, 0⟩).1.penalty_multiplier =
      max (1/10) ((1:ℚ) * MALFORMED_PENALTY_FACTOR)
  ∧ (record_malformed_request ⟨[], 1, 4, 0⟩).2 =
      some (RateLimitError.blocked (PENALTY_DECAY_MINUTES * 60))
  ∧ MAX_MALFORMED_BEFORE_BLOCK ≤ (4:ℤ) + 1 := by
  have hne : (record_malformed_request ⟨[], 1, 4, 0⟩).2 ≠ none := by
    norm_num [record_malformed_request, MALFORMED_PENALTY_FACTOR,
      MAX_MALFORMED_BEFORE_BLOCK]
    exact Option.some_ne_none _
  have := C10_mutations_persist_on_block ⟨[], 1, 4, 0⟩ hne
  exact ⟨hne, this.1, this.2.1, this.2.2.1, this.2.2.2⟩

theorem jwt_decode_ok_inv (nowSec : ℤ) (cred : Credential) (p : JWTPayload)
    (h : jwt_decode nowSec cred = Except.ok p) :
    p = cred.payload ∧ cred.sigValid = true
  ∧ (∀ a : String, cred.payload.aud = some a → a = JWT_AUDIENCE)
  ∧ cred.payload.iss = some JWT_ISSUER
  ∧ ∀ e : ℤ, cred.payload.exp = some e → nowSec ≤ e := by
  unfold jwt_decode at h
  split_ifs at h with h1 h2 h3 h4
  injection h with h
  refine ⟨h.symm, by simpa using h1, ?_, not_not.mp h4, ?_⟩
  · intro a haud
    rw [haud] at h3
    simpa using h3
  · intro e he
    rw [he] at h2
    simpa using h2

/-- The credential of the C2 counterexample: a signature-valid token with
correct issuer and audience whose expiry lies 10 seconds in the past. -/
def credC2 : Credential :=
  ⟨⟨some "svc-a", some ["read:metrics"], some 999990, some 0,
    some JWT_ISSUER, some JWT_AUDIENCE⟩, true, "hash-c2"⟩

/-- Claim C2 counterexample: at clock 1000000 s, this strictly-expired,
otherwise fully valid credential is rejected with the `invalid` outcome,
not `expired` — the decode step's own expiry check fires first and every
`JWTError` is mapped to `invalid`. -/
theorem C2_counterexample :
    credC2.payload.exp = some 999990 ∧ ((999990:ℤ) : ℚ) < 1000000
  ∧ credC2.sigValid = true
  ∧ get_current_token 1000000 (some credC2) = AuthResult.invalid
  ∧ get_current_token 1000000 (some credC2) ≠ AuthResult.expired := by
  have hf : ⌊(1000000:ℚ)⌋ = (1000000:ℤ) := by norm_num
  refine ⟨rfl, by norm_num, rfl, ?_, ?_⟩ <;>
    simp [get_current_token, jwt_decode, credC2, hf]

/-- Claim C2 as amended: a presented credential whose expiry is strictly
in the past is always rejected, but the outcome is `expired` exactly when
the signature verifies, any audience claim PRESENT equals the configured
audience (a missing aud claim is not validated by jose), the issuer claim
is present and equal, AND the decode step's whole-second expiry check did
not fire first (`⌊now⌋ ≤ exp`, i.e. the token expired within the current
clock second); in every other case the outcome is `invalid`. -/
theorem C2_expired_shadowed_by_decode (now : ℚ) (cred : Credential) (e : ℤ)
    (hexp : cred.payload.exp = some e) (hpast : (e : ℚ) < now) :
    (get_current_token now (some cred) = AuthResult.invalid
      ∨ get_current_token now (some cred) = AuthResult.expired)
  ∧ (get_current_token now (some cred) = AuthResult.expired ↔
      (cred.sigValid = true
        ∧ (∀ a : String, cred.payload.aud = some a → a = JWT_AUDIENCE)
        ∧ cred.payload.iss = some JWT_ISSUER ∧ ⌊now⌋ ≤ e)) := by
  unfold get_current_token jwt_decode
  dsimp only
  rw [hexp]
  rcases haud : cred.payload.aud with _ | a
  · by_cases hsig : cred.sigValid <;>
      by_cases hlt : e < ⌊now⌋ <;>
        by_cases hiss : cred.payload.iss = some JWT_ISSUER <;>
          first
            | (simp [hsig, hlt, hiss, hexp, hpast]; omega)
            | simp [hsig, hlt, hiss, hexp, hpast]
  · by_cases hsig : cred.sigValid <;>
      by_cases hlt : e < ⌊now⌋ <;>
        by_cases ha : a = JWT_AUDIENCE <;>
          by_cases hiss : cred.payload.iss = some JWT_ISSUER <;>
            first
              | (simp [hsig, hlt, ha, hiss, hexp, hpast]; omega)
              | simp [hsig, hlt, ha, hiss, hexp, hpast]

/-- The credential of the C2 witness: expiry exactly on the current whole
second, presented half a second after it — the only window in which the
explicit re-check (and hence the `expired` outcome) can fire. -/
def credC2w : Credential :=
  ⟨⟨some "svc-w", some [], some 1000000, some 0,
    some JWT_ISSUER, some JWT_AUDIENCE⟩, true, "hash-c2w"⟩

theorem C2_expired_shadowed_by_decode_witness :
    credC2w.payload.exp = some 1000000
  ∧ ((1000000:ℤ) : ℚ) < 1000000 + 1/2
  ∧ ((get_current_token (1000000 + 1/2) (some credC2w) = AuthResult.invalid
      ∨ get_current_token (1000000 + 1/2) (some credC2w) = AuthResult.expired)
     ∧ (get_current_token (1000000 + 1/2) (some credC2w) = AuthResult.expired ↔
        (credC2w.sigValid = true
          ∧ (∀ a : String, credC2w.payload.aud = some a → a = JWT_AUDIENCE)
          ∧ credC2w.payload.iss = some JWT_ISSUER
          ∧ ⌊(1000000 + 1/2 : ℚ)⌋ ≤ (1000000:ℤ)))) :=
  ⟨rfl, by norm_num,
   C2_expired_shadowed_by_decode (1000000 + 1/2) credC2w 1000000 rfl (by norm_num)⟩

/-- The credential of the C9 counterexample and witness: signature valid,
issuer and a future expiry present, but no `sub`, no `scopes`, no `iat`
and no `aud` claim at all (jose skips audience validation when the aud
claim is absent). -/
def credC9 : Credential :=
  ⟨⟨none, none, some 2000, none, some JWT_ISSUER, none⟩,
   true, "hash-c9"⟩

/-- The payload `get_current_token` builds for `credC9`: the absent claims
are silently defaulted, not rejected. -/
def tokC9 : TokenPayload :=
  ⟨"unknown", [], 2000, 0, JWT_ISSUER, "", "hash-c9"⟩

/-- Claim C9 counterexample: a credential with no subject, no capability
set, no issued-at and no audience claim is accepted at clock 1000 s, with
the missing claims replaced by the defaults "unknown", [], 0 and "" — it
is not rejected, refuting "all six claims required". -/
theorem C9_counterexample :
    credC9.payload.sub = none
  ∧ credC9.payload.scopes = none
  ∧ credC9.payload.iat = none
  ∧ credC9.payload.aud = none
  ∧ get_current_token 1000 (some credC9) = AuthResult.accepted tokC9 := by
  have hf : ⌊(1000:ℚ)⌋ = (1000:ℤ) := by norm_num
  refine ⟨rfl, rfl, rfl, rfl, ?_⟩
  simp [get_current_token, jwt_decode, credC9, tokC9, hf]
  norm_num

/-- Claim C9 as amended: acceptance requires the signature to verify, the
issuer claim to be present and equal to the configured issuer, any
audience claim PRESENT to equal the configured audience (a missing aud
claim is not validated and is defaulted to ""), and (whenever the clock is
positive) a present, non-past expiry — but `sub`, `scopes` and `iat` are
NOT required: they are defaulted to "unknown", [] and 0 when absent. -/
theorem C9_required_claims (now : ℚ) (cred : Credential) (t : TokenPayload)
    (hacc : get_current_token now (some cred) = AuthResult.accepted t)
    (hnow : 0 < now) :
    cred.sigValid = true
  ∧ cred.payload.iss = some JWT_ISSUER
  ∧ (∀ a : String, cred.payload.aud = some a → a = JWT_AUDIENCE)
  ∧ (∃ e : ℤ, cred.payload.exp = some e ∧ now ≤ (e : ℚ))
  ∧ t.sub = cred.payload.sub.getD "unknown"
  ∧ t.scopes = cred.payload.scopes.getD []
  ∧ t.iat = cred.payload.iat.getD 0
  ∧ t.aud = cred.payload.aud.getD "" := by
  unfold get_current_token at hacc
  dsimp only at hacc
  cases hdec : jwt_decode ⌊now⌋ cred with
  | error u => rw [hdec] at hacc; exact absurd hacc (by simp)
  | ok p =>
    rw [hdec] at hacc
    dsimp only at hacc
    obtain ⟨hp, hsig, haud, hiss, hexp⟩ := jwt_decode_ok_inv ⌊now⌋ cred p hdec
    subst hp
    split_ifs at hacc with hlt
    injection hacc with hacc
    subst hacc
    push_neg at hlt
    refine ⟨hsig, hiss, haud, ?_, rfl, rfl, rfl, rfl⟩
    cases hcase : cred.payload.exp with
    | none =>
      rw [hcase] at hlt
      norm_num at hlt
      exact absurd hnow (by linarith)
    | some e =>
      refine ⟨e, rfl, ?_⟩
      rw [hcase] at hlt
      simpa using hlt

theorem C9_required_claims_witness :
    credC9.sigValid = true
  ∧ credC9.payload.iss = some JWT_ISSUER
  ∧ (∀ a : String, credC9.payload.aud = some a → a = JWT_AUDIENCE)
  ∧ (∃ e : ℤ, credC9.payload.exp = some e ∧ (1000:ℚ) ≤ (e : ℚ))
  ∧ tokC9.sub = credC9.payload.sub.getD "unknown"
  ∧ tokC9.scopes = credC9.payload.scopes.getD []
  ∧ tokC9.iat = credC9.payload.iat.getD 0
  ∧ tokC9.aud = credC9.payload.aud.getD "" :=
  C9_required_claims 1000 credC9 tokC9
    (by
      have hf : ⌊(1000:ℚ)⌋ = (1000:ℤ) := by norm_num
      simp [get_current_token, jwt_decode, credC9, tokC9, hf]
      norm_num)
    (by norm_num)

/-- The token of the C3 counterexample: a valid identity holding only
"admin:users", checked against the requirement "read:users". -/
def tokC3 : TokenPayload :=
  ⟨"svc-a", ["admin:users"], 99999, 0, JWT_ISSUER, JWT_AUDIENCE, "hash-c3"⟩

/-- Claim C3 counterexample: the caller-visible 403 error carries the
required capability string "read:users" — which here is also the missing
capability — inside its `WWW-Authenticate` header, so it is not true that
none of the missing/required capability strings reach the caller. -/
theorem C3_counterexample :
    (scope_guard ["read:users"] tokC3).1 =
      Except.error ⟨403, "Insufficient scope",
        [("WWW-Authenticate", "Bearer scope=\"read:users\"")]⟩
  ∧ "Bearer scope=\"read:users\"" = "Bearer scope=\"" ++ "read:users" ++ "\""
  ∧ (scope_guard ["read:users"] tokC3).2 =
      ScopeLogEvent.authz_failure "hash-c3" ["read:users"] ["admin:users"]
        ["read:users"] := by
  exact ⟨rfl, rfl, rfl⟩

/-- Claim C3 as amended: on denial the caller-visible error is a function
of the required set alone — status 403, the constant generic detail, and a
`WWW-Authenticate` header listing exactly the required capability strings
(so the required strings DO reach the caller, while the token's possessed
and missing sets influence nothing caller-visible); the required, possessed
and missing sets are all reported to the event sink. -/
theorem C3_denial_detail (required_scopes : List String) (t : TokenPayload)
    (h : required_scopes.filter (fun s => !(t.scopes.contains s)) ≠ []) :
    (scope_guard required_scopes t).1 =
      Except.error
        { status_code := 403
          detail := "Insufficient scope"
          headers := [("WWW-Authenticate",
            "Bearer scope=\"" ++ String.intercalate " " required_scopes ++ "\"")] }
  ∧ (scope_guard required_scopes t).2 =
      ScopeLogEvent.authz_failure t.token_hash required_scopes t.scopes
        (required_scopes.filter (fun s => !(t.scopes.contains s))) := by
  unfold scope_guard
  dsimp only
  rw [if_pos h]
  exact ⟨rfl, rfl⟩

theorem C3_denial_detail_witness :
    (["read:users"].filter (fun s => !(tokC3.scopes.contains s)) ≠ [])
  ∧ ((scope_guard ["read:users"] tokC3).1 =
      Except.error
        { status_code := 403
          detail := "Insufficient scope"
          headers := [("WWW-Authenticate",
            "Bearer scope=\"" ++ String.intercalate " " ["read:users"] ++ "\"")] }
     ∧ (scope_guard ["read:users"] tokC3).2 =
        ScopeLogEvent.authz_failure tokC3.token_hash ["read:users"] tokC3.scopes
          (["read:users"].filter (fun s => !(tokC3.scopes.contains s)))) :=
  ⟨by decide, C3_denial_detail ["read:users"] tokC3 (by decide)⟩

/-- The token of the C8 scenario: granted capability set exactly
{"admin:users"}. -/
def tokC8 : TokenPayload :=
  ⟨"svc-b", ["admin:users"], 99999, 0, JWT_ISSUER, JWT_AUDIENCE, "hash-c8"⟩

/-- Claim C8: an identity holding only "admin:users", checked against the
requirement "read:users", is denied with the 403 insufficient-scope
outcome and the sink receives `missing_scopes = ["read:users"]`; and in
general a requirement is satisfied exactly when every required capability
string is literally a member of the granted set — no capability string
ever satisfies a requirement for a different string. -/
theorem C8_no_capability_inheritance :
    (scope_guard ["read:users"] tokC8).1 =
      Except.error ⟨403, "Insufficient scope",
        [("WWW-Authenticate", "Bearer scope=\"read:users\"")]⟩
  ∧ (scope_guard ["read:users"] tokC8).2 =
      ScopeLogEvent.authz_failure "hash-c8" ["read:users"] ["admin:users"]
        ["read:users"]
  ∧ ∀ (required_scopes : List String) (t : TokenPayload),
      scopeOk (scope_guard required_scopes t).1 =
        required_scopes.all (fun s => t.scopes.contains s) := by
  refine ⟨rfl, rfl, ?_⟩
  intro required_scopes t
  unfold scope_guard scopeOk
  dsimp only
  split_ifs with h
  · obtain ⟨x, hx⟩ := List.exists_mem_of_ne_nil _ h
    rw [List.mem_filter] at hx
    dsimp only
    symm
    rw [List.all_eq_false]
    have hc : t.scopes.contains x = false := by simpa using hx.2
    exact ⟨x, hx.1, by simpa using hc⟩
  · rw [not_not] at h
    dsimp only
    symm
    rw [List.all_eq_true]
    intro x hxmem
    have := List.filter_eq_nil_iff.mp h x hxmem
    simpa using this
